import Mathlib

/-!
Verification of the HTTP/3 client (`http3/client.go`) of this repository.

The client code under `src/http3/client.go` is embedded shallowly below.
External collaborators (the QUIC transport, the QPACK codec, the frame
parser living in a file outside `src/`) are represented by oracle inputs:
each call into a collaborator is replaced by a field of an environment
record carrying the outcome of that call, while all decision logic of
`client.go` itself is translated line by line.
-/

namespace Http3Client

/-! ## HTTP header model (net/http and net/textproto behavior used by client.go) -/

/-- Valid header-field byte, from net/textproto `validHeaderFieldByte`:
digits, letters, and the characters of the token set. -/
def validHeaderFieldChar (c : Char) : Bool :=
  c.isDigit || (c.toNat ≥ 97 && c.toNat ≤ 122) || (c.toNat ≥ 65 && c.toNat ≤ 90) ||
  c = '!' || c = '#' || c = '$' || c = '%' || c = '&' || c = Char.ofNat 39 ||
  c = '*' || c = '+' || c = '-' || c = '.' || c = Char.ofNat 94 ||
  c = '_' || c = Char.ofNat 96 || c = '|' || c = Char.ofNat 126

/-- Case mapping of net/textproto canonicalization: uppercase the first
letter and each letter following a hyphen, lowercase every other letter. -/
def canonicalKeyAux : Bool → List Char → List Char
  | _, [] => []
  | upper, c :: rest =>
    (if upper then c.toUpper else c.toLower) :: canonicalKeyAux (c = '-') rest

/-- net/textproto `CanonicalMIMEHeaderKey`: canonicalize when every byte is a
valid header-field byte, otherwise return the key unchanged. -/
def canonicalMIMEHeaderKey (s : String) : String :=
  if s.data.all validHeaderFieldChar then ⟨canonicalKeyAux true s.data⟩ else s

/-- net/http `Header`: a map from canonical keys to lists of values,
represented as an association list with at most one entry per key. -/
abbrev Header := List (String × List String)

/-- Direct map lookup `h[key]` (the key is used verbatim, as in Go). -/
def headerValues (h : Header) (key : String) : Option (List String) :=
  (h.find? (fun p => p.1 = key)).map Prod.snd

/-- net/http `Header.Add`: canonicalize the key and append the value. -/
def headerAdd (h : Header) (key value : String) : Header :=
  let k := canonicalMIMEHeaderKey key
  if h.any (fun p => p.1 = k) then
    h.map (fun p => if p.1 = k then (p.1, p.2 ++ [value]) else p)
  else
    h ++ [(k, [value])]

/-- net/http `Header.Get`: canonicalize the key, return the first value or "". -/
def headerGet (h : Header) (key : String) : String :=
  match headerValues h (canonicalMIMEHeaderKey key) with
  | some (v :: _) => v
  | _ => ""

/-- net/http `Header.Del`: canonicalize the key and remove its entry. -/
def headerDel (h : Header) (key : String) : Header :=
  let k := canonicalMIMEHeaderKey key
  h.filter (fun p => p.1 ≠ k)

/-! ## Integer parsing (strconv behavior used by client.go) -/

/-- Decimal digit accumulation of strconv: fails on any non-digit byte. -/
def parseDigitsAux : List Char → Nat → Option Nat
  | [], acc => some acc
  | c :: rest, acc =>
    if c.isDigit then parseDigitsAux rest (acc * 10 + (c.toNat - 48)) else none

/-- strconv `ParseInt(s, 10, 64)`: optional sign, then a nonempty run of
decimal digits, within the signed 64-bit range; anything else fails. -/
def goParseInt64 (s : String) : Option Int :=
  match s.data with
  | [] => none
  | c :: rest =>
    let signDigits : Bool × List Char :=
      if c = '+' then (false, rest)
      else if c = '-' then (true, rest)
      else (false, c :: rest)
    match signDigits.2 with
    | [] => none
    | ds =>
      match parseDigitsAux ds 0 with
      | none => none
      | some n =>
        if signDigits.1 then
          if n ≤ 2 ^ 63 then some (-(n : Int)) else none
        else
          if n < 2 ^ 63 then some (n : Int) else none

/-- strconv `Atoi` (64-bit int): identical to `ParseInt(s, 10, 64)`. -/
def goAtoi (s : String) : Option Int := goParseInt64 s

/-- net/http `StatusText`; only fed into the textual `Status` field, which no
claim inspects, so the reason phrase is modelled as empty. -/
def statusText (_code : Int) : String := ""

/-! ## HTTP/3 error codes and stream types.

Modelled from the spec: the numeric constants live in `errorcodes.go` of this
repository, which is not under `src/`; the spec (section 7) only names the two
disjoint code spaces. Values follow the HTTP/3 error-code registry; every one
of them is nonzero, which is all the client code relies on (a zero field of
`requestError` means "no error in this space"). -/

def errorNoError : Nat := 0x100
def errorGeneralProtocolError : Nat := 0x101
def errorInternalError : Nat := 0x102
def errorStreamCreationError : Nat := 0x103
def errorFrameUnexpected : Nat := 0x105
def errorFrameError : Nat := 0x106
def errorIDError : Nat := 0x108
def errorSettingsError : Nat := 0x109
def errorMissingSettings : Nat := 0x10a
def errorRequestCanceled : Nat := 0x10c
def errorRequestIncomplete : Nat := 0x10d

/-- Modelled from the spec: leading unidirectional stream-type identifiers
(`streamTypeControlStream` and friends live outside `src/`); the values are
the wire constants, the client only compares them for equality. -/
def streamTypeControlStream : Nat := 0
def streamTypePushStream : Nat := 1
def streamTypeQPACKEncoderStream : Nat := 2
def streamTypeQPACKDecoderStream : Nat := 3

/-! ## Frames and the request-error classification -/

/-- The frames `parseNextFrame` can hand back to client.go. -/
inductive Frame
  | dataFrame (length : Nat)
  | headersFrame (length : Nat)
  | settingsFrame (datagram : Bool)
  deriving DecidableEq, Repr

/-- Modelled from the spec: `requestError` (in `errors.go`, outside `src/`)
carries the error and its classification into exactly one of the stream-scoped
or connection-scoped code spaces; a zero code means "not in this space". The
error itself is represented by its message string. -/
structure requestError where
  err : Option String := none
  streamErr : Nat := 0
  connErr : Nat := 0
  deriving DecidableEq, Repr

/-- Modelled from the spec: constructor of a stream-scoped `requestError`. -/
def newStreamError (code : Nat) (msg : String) : requestError :=
  { err := some msg, streamErr := code }

/-- Modelled from the spec: constructor of a connection-scoped `requestError`. -/
def newConnError (code : Nat) (msg : String) : requestError :=
  { err := some msg, connErr := code }

/-! ## Requests, responses, options -/

structure Request where
  Method : String
  Header : Header := []
  deriving DecidableEq, Repr

/-- What `res.Body` ends up being: the raw response body reader, or that
reader wrapped in the gzip decompressor. -/
inductive BodyKind
  | noBody
  | raw
  | gzip
  deriving DecidableEq, Repr

structure Response where
  Proto : String := "HTTP/3"
  ProtoMajor : Nat := 3
  Status : String := ""
  StatusCode : Int := 0
  Header : Header := []
  ContentLength : Int := 0
  Body : BodyKind := BodyKind.noBody
  Uncompressed : Bool := false
  deriving DecidableEq, Repr

/-- Options record `roundTripperOpts` of client.go; the two hijacker function fields are
abstracted to their presence (only `!= nil` checks occur in the client). -/
structure roundTripperOpts where
  DisableCompression : Bool := false
  EnableDatagram : Bool := false
  MaxHeaderBytes : Int := 0
  hasStreamHijacker : Bool := false
  hasUniStreamHijacker : Bool := false
  deriving DecidableEq, Repr

/-- Constant `defaultMaxResponseHeaderBytes = 10 * 1 << 20` of client.go. -/
def defaultMaxResponseHeaderBytes : Nat := 10 * (1 <<< 20)

/-- Method `client.maxHeaderBytes`: the configured cap when positive, else the
10 MB default. -/
def maxHeaderBytes (opts : roundTripperOpts) : Nat :=
  if opts.MaxHeaderBytes ≤ 0 then defaultMaxResponseHeaderBytes
  else opts.MaxHeaderBytes.toNat

/-! ## Observable side effects

Calls into the transport are recorded as a trace of actions, in program
order. -/

inductive Action
  | waitHandshake
  | openStream
  | readFrame
  | closeReqDone
  | cancelWrite (code : Nat)
  | cancelRead (code : Nat)
  | closeConn (code : Nat) (reason : String)
  deriving DecidableEq, Repr

/-! ## doRequest -/

/-- Outcome of the `parseNextFrame(str, nil)` call in `doRequest`: with a nil
unknown-frame handler the parser either fails or returns a known frame. -/
inductive FrameReadResult
  | ok (f : Frame)
  | readErr (msg : String)
  deriving DecidableEq, Repr

/-- Oracle for the collaborator calls made by `doRequest`: the outcome of
`requestWriter.WriteRequest`, of `parseNextFrame(str, nil)`, of
`io.ReadFull(str, headerBlock)`, and of `decoder.DecodeFull` (a decoded
header field is a Name/Value pair). -/
structure DoRequestEnv where
  writeRequestErr : Option String := none
  frameResult : FrameReadResult
  readFullErr : Option String := none
  decodeResult : Except String (List (String × String)) := Except.ok []
  deriving Repr

/-- What `doRequest` produces: the response and `requestError` it returns,
the size of the header-block buffer it allocated (none if it failed before
the `make([]byte, hf.Length)` line), and the method of the request it handed
to `WriteRequest`. -/
structure DoRequestOutcome where
  rsp : Option Response
  rerr : requestError
  allocated : Option Nat := none
  sentMethod : String
  deriving DecidableEq, Repr

/-- The header-processing loop of `doRequest`: `:status` is parsed with
`strconv.Atoi` (failure is a stream-scoped general protocol error), every
other field is added to the response header map. -/
def processHeaderFields : List (String × String) → Response → Except requestError Response
  | [], res => Except.ok res
  | hf :: rest, res =>
    if hf.1 = ":status" then
      match goAtoi hf.2 with
      | none =>
        Except.error (newStreamError errorGeneralProtocolError
          "malformed non-numeric status pseudo header")
      | some status =>
        processHeaderFields rest
          { res with StatusCode := status, Status := hf.2 ++ " " ++ statusText status }
    else
      processHeaderFields rest { res with Header := headerAdd res.Header hf.1 hf.2 }

/-- The Content-Length resolution block of `doRequest` (RFC 7230 section
3.3.2 rules): skipped entirely for Transfer-Encoding, 1xx, 204 and
successful CONNECT responses; otherwise -1, overridden by the single
well-formed Content-Length value if there is exactly one. -/
def resolveContentLength (reqMethod : String) (res : Response) : Response :=
  let hasTransferEncoding := (headerValues res.Header "Transfer-Encoding").isSome
  let isInformational := decide (100 ≤ res.StatusCode) && decide (res.StatusCode < 200)
  let isNoContent := decide (res.StatusCode = 204)
  let isSuccessfulConnect :=
    (reqMethod = "CONNECT" : Bool) && decide (200 ≤ res.StatusCode) &&
    decide (res.StatusCode < 300)
  if !hasTransferEncoding && !isInformational && !isNoContent && !isSuccessfulConnect then
    let res := { res with ContentLength := -1 }
    match headerValues res.Header "Content-Length" with
    | some [clen] =>
      match goParseInt64 clen with
      | some clen64 => { res with ContentLength := clen64 }
      | none => res
    | _ => res
  else
    res

/-- The gzip step of `doRequest`: when gzip was requested and the response
declares `Content-Encoding: gzip`, strip that header and Content-Length,
mark the length unknown and wrap the body in the gzip reader; otherwise the
raw body is used. -/
def applyGzip (requestGzip : Bool) (res : Response) : Response :=
  if requestGzip && (headerGet res.Header "Content-Encoding" = "gzip" : Bool) then
    { res with
      Header := headerDel (headerDel res.Header "Content-Encoding") "Content-Length",
      ContentLength := -1,
      Body := BodyKind.gzip,
      Uncompressed := true }
  else
    { res with Body := BodyKind.raw }

/-- The `requestGzip` determination at the top of `doRequest`. -/
def computeRequestGzip (opts : roundTripperOpts) (req : Request) : Bool :=
  !opts.DisableCompression && !(req.Method = "HEAD" : Bool) &&
  (headerGet req.Header "Accept-Encoding" = "" : Bool) &&
  (headerGet req.Header "Range" = "" : Bool)

/-- The fresh response value built in `doRequest` before the header loop
(`Proto: "HTTP/3", ProtoMajor: 3, Header: http.Header{}`). -/
def initialResponse : Response := {}

/-- Method `client.doRequest`: write the request, read exactly one frame (it must
be HEADERS, and not larger than the header byte budget), read and decode the
header block, build response metadata, resolve the content length, and apply
the transparent-gzip step. -/
def doRequest (opts : roundTripperOpts) (req : Request) (env : DoRequestEnv) :
    DoRequestOutcome :=
  let requestGzip := computeRequestGzip opts req
  match env.writeRequestErr with
  | some e => { rsp := none, rerr := newStreamError errorInternalError e, sentMethod := req.Method }
  | none =>
    match env.frameResult with
    | FrameReadResult.readErr e =>
      { rsp := none, rerr := newStreamError errorFrameError e, sentMethod := req.Method }
    | FrameReadResult.ok f =>
      match f with
      | Frame.headersFrame len =>
        if len > maxHeaderBytes opts then
          { rsp := none,
            rerr := newStreamError errorFrameError
              ("HEADERS frame too large: " ++ toString len ++ " bytes (max: " ++
               toString (maxHeaderBytes opts) ++ ")"),
            sentMethod := req.Method }
        else
          match env.readFullErr with
          | some e =>
            { rsp := none, rerr := newStreamError errorRequestIncomplete e,
              allocated := some len, sentMethod := req.Method }
          | none =>
            match env.decodeResult with
            | Except.error e =>
              { rsp := none, rerr := newConnError errorGeneralProtocolError e,
                allocated := some len, sentMethod := req.Method }
            | Except.ok hfs =>
              match processHeaderFields hfs initialResponse with
              | Except.error re =>
                { rsp := none, rerr := re, allocated := some len, sentMethod := req.Method }
              | Except.ok res =>
                let res := resolveContentLength req.Method res
                let res := applyGzip requestGzip res
                { rsp := some res, rerr := {}, allocated := some len,
                  sentMethod := req.Method }
      | _ =>
        { rsp := none,
          rerr := newConnError errorFrameUnexpected "expected first frame to be a HEADERS frame",
          sentMethod := req.Method }

/-! ## RoundTrip -/

/-- Oracle for `RoundTrip` around its `doRequest` call: the memoized result of
the once-only dial, whether the request's context fired before the
handshake-complete signal in the select, the context error in that case, and
the outcome of `OpenStreamSync`. -/
structure RoundTripEnv where
  dialErr : Option String := none
  ctxDoneBeforeHandshake : Bool := false
  ctxErr : String := "context canceled"
  openStreamErr : Option String := none
  reqEnv : DoRequestEnv
  deriving Repr

structure RoundTripResult where
  rsp : Option Response
  err : Option String
  trace : List Action
  sentMethod : Option String := none
  deriving DecidableEq, Repr

/-- The tail of `RoundTrip` from `OpenStreamSync` on: open the stream, run
`doRequest`, and on error close the request-done channel first, then cancel
the stream write side for a stream-scoped code, then close the connection
(reason = the error message) for a connection-scoped code. -/
def roundTripAfterHandshake (opts : roundTripperOpts) (req : Request)
    (env : RoundTripEnv) (tr : List Action) : RoundTripResult :=
  match env.openStreamErr with
  | some e => { rsp := none, err := some e, trace := tr }
  | none =>
    let tr := tr ++ [Action.openStream]
    let out := doRequest opts req env.reqEnv
    if out.rerr.err.isSome then
      let tr := tr ++ [Action.closeReqDone]
      let tr := tr ++
        (if out.rerr.streamErr ≠ 0 then [Action.cancelWrite out.rerr.streamErr] else [])
      let tr := tr ++
        (if out.rerr.connErr ≠ 0 then
          [Action.closeConn out.rerr.connErr (out.rerr.err.getD "")] else [])
      { rsp := out.rsp, err := out.rerr.err, trace := tr, sentMethod := some out.sentMethod }
    else
      { rsp := out.rsp, err := out.rerr.err, trace := tr, sentMethod := some out.sentMethod }

/-- Method `client.RoundTrip` (after the authority check): propagate the dial error;
a `GET_0RTT` request is rewritten to `GET` and sent without waiting for the
handshake, any other request waits on the handshake-complete signal racing
the request context, returning the context error if the context fires
first. -/
def roundTrip (opts : roundTripperOpts) (req : Request) (env : RoundTripEnv) :
    RoundTripResult :=
  match env.dialErr with
  | some e => { rsp := none, err := some e, trace := [] }
  | none =>
    if req.Method = "GET_0RTT" then
      roundTripAfterHandshake opts { req with Method := "GET" } env []
    else
      if env.ctxDoneBeforeHandshake then
        { rsp := none, err := some env.ctxErr, trace := [Action.waitHandshake] }
      else
        roundTripAfterHandshake opts req env [Action.waitHandshake]

/-! ## Unidirectional stream dispatch -/

/-- Outcome of the `parseNextFrame(str, ufh)` call on the control stream:
a frame, the hijacked sentinel (an unknown frame claimed by the configured
uni-stream hijacker), or a parse error. -/
inductive ControlParseResult
  | ok (f : Frame)
  | hijacked
  | parseErr (msg : String)
  deriving DecidableEq, Repr

/-- Oracle for one accepted unidirectional stream: the leading stream-type
varint read, the control-stream frame parse outcome, and whether the
transport connection reports datagram support. -/
structure UniStreamEnv where
  streamTypeRead : Except String Nat
  controlParse : ControlParseResult := ControlParseResult.parseErr ""
  transportSupportsDatagrams : Bool := false
  deriving Repr

/-- The per-stream body of `client.handleUnidirectionalStreams`: dispatch on
the leading stream type (QPACK streams are ignored, a push stream closes the
connection with the id error, an unrecognized type has its read side
canceled with the stream-creation error), then, on the control stream only,
read exactly one frame, which must be SETTINGS (else close with missing
settings), and verify transport datagram support when SETTINGS flags
datagrams and the client requested them. -/
def handleUniStream (opts : roundTripperOpts) (env : UniStreamEnv) : List Action :=
  match env.streamTypeRead with
  | Except.error _ => []
  | Except.ok streamType =>
    if streamType = streamTypeControlStream then
      Action.readFrame ::
      (match env.controlParse with
       | ControlParseResult.hijacked => []
       | ControlParseResult.parseErr _ => [Action.closeConn errorFrameError ""]
       | ControlParseResult.ok f =>
         match f with
         | Frame.settingsFrame dg =>
           if !dg then []
           else if opts.EnableDatagram && !env.transportSupportsDatagrams then
             [Action.closeConn errorSettingsError "missing QUIC Datagram support"]
           else []
         | _ => [Action.closeConn errorMissingSettings ""])
    else if streamType = streamTypeQPACKEncoderStream ∨
            streamType = streamTypeQPACKDecoderStream then
      []
    else if streamType = streamTypePushStream then
      [Action.closeConn errorIDError ""]
    else
      [Action.cancelRead errorStreamCreationError]

/-! ## Close -/

/-- The client state `Close` looks at: whether `c.conn` is nil (never
dialed). `Close` does not modify the client. -/
structure ClientState where
  connDialed : Bool
  deriving DecidableEq, Repr

/-- Method `client.Close`: nothing to do when never dialed; otherwise close the
transport connection with the no-error code (the transport's
`CloseWithError` itself returns nil). -/
def clientClose (c : ClientState) : Option String × List Action :=
  if c.connDialed then
    (none, [Action.closeConn errorNoError ""])
  else
    (none, [])

/-- The request as it reaches `doRequest`: `RoundTrip` rewrites the method
of a `GET_0RTT` request to `GET` before sending, and leaves any other
request unchanged. -/
def effectiveRequest (req : Request) : Request :=
  if req.Method = "GET_0RTT" then { req with Method := "GET" } else req

/-! ## Concrete inputs used to instantiate the theorems below -/

def wGetRequest : Request := { Method := "GET" }

def wZeroRttRequest : Request := { Method := "GET_0RTT" }

def wParseFailEnv : RoundTripEnv :=
  { reqEnv := { frameResult := FrameReadResult.readErr "boom" } }

def wDataFrameEnv : DoRequestEnv := { frameResult := FrameReadResult.ok (Frame.dataFrame 7) }

def wBigHeadersEnv : DoRequestEnv :=
  { frameResult := FrameReadResult.ok (Frame.headersFrame 20000000) }

def wNoContentResponse : Response :=
  { StatusCode := 204, Header := [("Content-Length", ["17"])] }

def wGzipResponse : Response :=
  { StatusCode := 200,
    Header := [("Content-Encoding", ["gzip"]), ("Content-Length", ["10"])] }

def wDupContentLengthResponse : Response :=
  { StatusCode := 200, Header := [("Content-Length", ["10", "20"])] }

def wControlDataEnv : UniStreamEnv :=
  { streamTypeRead := Except.ok 0,
    controlParse := ControlParseResult.ok (Frame.dataFrame 3) }

def wPushEnv : UniStreamEnv := { streamTypeRead := Except.ok 1 }

def wUnknownUniEnv : UniStreamEnv := { streamTypeRead := Except.ok 0x21 }

def wHijackerOpts : roundTripperOpts := { hasUniStreamHijacker := true }

def wBadStatusEnv : DoRequestEnv :=
  { frameResult := FrameReadResult.ok (Frame.headersFrame 4),
    decodeResult := Except.ok [(":status", "abc")] }

/-! ## General lemmas about the embedded code -/

/-- The only error the response-header loop can produce is the stream-scoped
malformed-status error. -/
theorem processHeaderFields_error_eq (hfs : List (String × String)) :
    ∀ res re, processHeaderFields hfs res = Except.error re →
      re = newStreamError errorGeneralProtocolError
        "malformed non-numeric status pseudo header" := by
  induction hfs with
  | nil =>
    intro res re h
    simp [processHeaderFields] at h
  | cons hf rest ih =>
    intro res re h
    simp only [processHeaderFields] at h
    split at h
    · cases hgoa : goAtoi hf.2 with
      | none => rw [hgoa] at h; exact (Except.error.injEq _ _).mp h.symm |>.symm ▸ rfl
      | some status => rw [hgoa] at h; exact ih _ _ h
    · exact ih _ _ h

/-- Every `requestError` produced by `doRequest` is classified into at most
one of the two error-code spaces. -/
theorem doRequest_error_scope (opts : roundTripperOpts) (req : Request)
    (env : DoRequestEnv) :
    (doRequest opts req env).rerr.streamErr = 0 ∨
    (doRequest opts req env).rerr.connErr = 0 := by
  unfold doRequest
  cases env.writeRequestErr with
  | some e => right; rfl
  | none =>
    cases env.frameResult with
    | readErr e => right; rfl
    | ok f =>
      cases f with
      | dataFrame len => left; rfl
      | settingsFrame dg => left; rfl
      | headersFrame len =>
        simp only
        split
        · right; rfl
        · cases env.readFullErr with
          | some e => right; rfl
          | none =>
            cases env.decodeResult with
            | error e => left; rfl
            | ok hfs =>
              simp only
              cases hph : processHeaderFields hfs initialResponse with
              | error re =>
                right
                rw [processHeaderFields_error_eq hfs _ _ hph]
                rfl
              | ok res => right; rfl

/-- Lemma: `doRequest` always hands the request it was given to `WriteRequest`. -/
theorem doRequest_sentMethod (opts : roundTripperOpts) (req : Request)
    (env : DoRequestEnv) : (doRequest opts req env).sentMethod = req.Method := by
  unfold doRequest
  cases env.writeRequestErr with
  | some e => rfl
  | none =>
    cases env.frameResult with
    | readErr e => rfl
    | ok f =>
      cases f with
      | dataFrame len => rfl
      | settingsFrame dg => rfl
      | headersFrame len =>
        simp only
        split
        · rfl
        · cases env.readFullErr with
          | some e => rfl
          | none =>
            cases env.decodeResult with
            | error e => rfl
            | ok hfs =>
              simp only
              cases hph : processHeaderFields hfs initialResponse <;> simp [hph]

/-- Claim C3: after the request is written, the first frame read from the
stream must be a HEADERS frame; a frame of another known type fails the
exchange with the connection-scoped unexpected-frame error, while a failure
to parse the frame fails with the stream-scoped frame error. -/
theorem C3_first_frame_must_be_headers (opts : roundTripperOpts) (req : Request)
    (env : DoRequestEnv) (hw : env.writeRequestErr = none) :
    (∀ len, env.frameResult = FrameReadResult.ok (Frame.dataFrame len) →
      (doRequest opts req env).rerr =
        newConnError errorFrameUnexpected "expected first frame to be a HEADERS frame") ∧
    (∀ dg, env.frameResult = FrameReadResult.ok (Frame.settingsFrame dg) →
      (doRequest opts req env).rerr =
        newConnError errorFrameUnexpected "expected first frame to be a HEADERS frame") ∧
    (∀ msg, env.frameResult = FrameReadResult.readErr msg →
      (doRequest opts req env).rerr = newStreamError errorFrameError msg) ∧
    (∀ msg, (newConnError errorFrameUnexpected msg).connErr ≠ 0 ∧
      (newConnError errorFrameUnexpected msg).streamErr = 0) ∧
    (∀ msg, (newStreamError errorFrameError msg).streamErr ≠ 0 ∧
      (newStreamError errorFrameError msg).connErr = 0) := by
  refine ⟨fun len hf => ?_, fun dg hf => ?_, fun msg hf => ?_,
    fun msg => ⟨by simp [newConnError, errorFrameUnexpected], rfl⟩,
    fun msg => ⟨by simp [newStreamError, errorFrameError], rfl⟩⟩ <;>
    simp [doRequest, hw, hf]

/-- Witness for C3 at a concrete input: a DATA frame arriving first yields
the connection-scoped unexpected-frame error. -/
theorem C3_witness :
    (doRequest {} wGetRequest wDataFrameEnv).rerr =
      newConnError errorFrameUnexpected "expected first frame to be a HEADERS frame" :=
  (C3_first_frame_must_be_headers {} wGetRequest wDataFrameEnv rfl).1 7 rfl

/-- Claim C4: a HEADERS frame whose declared length exceeds
`maxHeaderBytes` (the configured cap, or 10485760 when the configured value
is not positive) fails the exchange with a stream-scoped error before the
header-block buffer is allocated, and any buffer `doRequest` does allocate
is within the budget. -/
theorem C4_headers_frame_size_guard (opts : roundTripperOpts) (req : Request)
    (env : DoRequestEnv) :
    (∀ len, env.writeRequestErr = none →
      env.frameResult = FrameReadResult.ok (Frame.headersFrame len) →
      len > maxHeaderBytes opts →
      (doRequest opts req env).rerr.streamErr = errorFrameError ∧
      (doRequest opts req env).rerr.connErr = 0 ∧
      (doRequest opts req env).rerr.err.isSome = true ∧
      (doRequest opts req env).allocated = none) ∧
    (∀ n, (doRequest opts req env).allocated = some n → n ≤ maxHeaderBytes opts) ∧
    (opts.MaxHeaderBytes ≤ 0 → maxHeaderBytes opts = 10485760) := by
  refine ⟨fun len hw hf hlen => ?_, fun n halloc => ?_, fun hcap => ?_⟩
  · simp [doRequest, hw, hf, hlen, newStreamError]
  · revert halloc
    unfold doRequest
    cases env.writeRequestErr with
    | some e => intro h; simp at h
    | none =>
      cases env.frameResult with
      | readErr e => intro h; simp at h
      | ok f =>
        cases f with
        | dataFrame len => intro h; simp at h
        | settingsFrame dg => intro h; simp at h
        | headersFrame len =>
          simp only
          split
          · intro h; simp at h
          · rename_i hle
            push_neg at hle
            cases env.readFullErr with
            | some e => intro h; simp at h; omega
            | none =>
              cases env.decodeResult with
              | error e => intro h; simp at h; omega
              | ok hfs =>
                simp only
                cases hph : processHeaderFields hfs initialResponse <;>
                  · intro h; simp at h; omega
  · simp [maxHeaderBytes, hcap, defaultMaxResponseHeaderBytes]

/-- Witness for C4 at a concrete input: a 20000000-byte HEADERS frame against
the default 10485760-byte budget is rejected stream-scoped with no buffer
allocated. -/
theorem C4_witness :
    (doRequest {} wGetRequest wBigHeadersEnv).rerr.streamErr = errorFrameError ∧
    (doRequest {} wGetRequest wBigHeadersEnv).rerr.connErr = 0 ∧
    (doRequest {} wGetRequest wBigHeadersEnv).rerr.err.isSome = true ∧
    (doRequest {} wGetRequest wBigHeadersEnv).allocated = none :=
  (C4_headers_frame_size_guard {} wGetRequest wBigHeadersEnv).1 20000000 rfl rfl (by decide)

/-- Claim C9: `Close` on a never-dialed client returns no error and performs
no transport interaction; `Close` never returns an error (and, since it does
not modify the client, a second call behaves exactly like the first); on a
dialed client it closes the transport connection with the no-error code. -/
theorem C9_close_idempotent (c : ClientState) :
    (c.connDialed = false → clientClose c = (none, [])) ∧
    ((clientClose c).1 = none) ∧
    (c.connDialed = true →
      clientClose c = (none, [Action.closeConn errorNoError ""])) := by
  refine ⟨fun h => ?_, ?_, fun h => ?_⟩ <;> simp [clientClose, *]
  cases c.connDialed <;> rfl

/-- Witness for C9 at concrete inputs: both the never-dialed and the dialed
client. -/
theorem C9_witness :
    clientClose { connDialed := false } = (none, []) ∧
    clientClose { connDialed := true } = (none, [Action.closeConn errorNoError ""]) :=
  ⟨(C9_close_idempotent { connDialed := false }).1 rfl,
   (C9_close_idempotent { connDialed := true }).2.2 rfl⟩

/-- Claim C10: a response header block on which `DecodeFull` fails aborts the
exchange with the connection-scoped general protocol error, while a
non-numeric `:status` pseudo-header in a successfully decoded block fails
with only the stream-scoped general protocol error. -/
theorem C10_decode_error_scope (opts : roundTripperOpts) (req : Request)
    (env : DoRequestEnv) (len : Nat) (hw : env.writeRequestErr = none)
    (hf : env.frameResult = FrameReadResult.ok (Frame.headersFrame len))
    (hlen : ¬ len > maxHeaderBytes opts) (hr : env.readFullErr = none) :
    (∀ e, env.decodeResult = Except.error e →
      (doRequest opts req env).rerr.connErr = errorGeneralProtocolError ∧
      (doRequest opts req env).rerr.streamErr = 0 ∧
      (doRequest opts req env).rerr.err = some e) ∧
    (∀ hfs, env.decodeResult = Except.ok hfs →
      (doRequest opts req env).rerr.err.isSome = true →
      (doRequest opts req env).rerr =
        newStreamError errorGeneralProtocolError
          "malformed non-numeric status pseudo header") := by
  constructor
  · intro e hd
    simp [doRequest, hw, hf, hlen, hr, hd, newConnError]
  · intro hfs hd
    simp only [doRequest, hw, hf, hlen, hr, hd, if_neg hlen]
    cases hph : processHeaderFields hfs initialResponse with
    | error re =>
      intro _
      simpa using processHeaderFields_error_eq hfs _ _ hph
    | ok res =>
      intro hcontra
      simp at hcontra

/-- Witness for C10 at a concrete input: a decoded block whose `:status`
value is "abc" produces the stream-scoped malformed-status error. -/
theorem C10_witness :
    (doRequest {} wGetRequest wBadStatusEnv).rerr =
      newStreamError errorGeneralProtocolError
        "malformed non-numeric status pseudo header" :=
  (C10_decode_error_scope {} wGetRequest wBadStatusEnv 4 rfl rfl (by decide) rfl).2
    [(":status", "abc")] rfl (by decide)

/-- The trace of the tail of `RoundTrip` when `doRequest` fails: the actions
already performed, then the stream opening, then the cleanup sequence in
program order. -/
theorem roundTripAfterHandshake_error_trace (opts : roundTripperOpts)
    (req : Request) (env : RoundTripEnv) (tr : List Action) (msg : String)
    (hopen : env.openStreamErr = none)
    (herr : (doRequest opts req env.reqEnv).rerr.err = some msg) :
    (roundTripAfterHandshake opts req env tr).trace =
      tr ++ [Action.openStream, Action.closeReqDone] ++
      (if (doRequest opts req env.reqEnv).rerr.streamErr ≠ 0 then
        [Action.cancelWrite (doRequest opts req env.reqEnv).rerr.streamErr] else []) ++
      (if (doRequest opts req env.reqEnv).rerr.connErr ≠ 0 then
        [Action.closeConn (doRequest opts req env.reqEnv).rerr.connErr msg] else []) := by
  unfold roundTripAfterHandshake
  rw [hopen]
  simp [herr, List.append_assoc]

/-- The tail of `RoundTrip` only ever appends to the action trace it starts
from, and never a handshake wait. -/
theorem roundTripAfterHandshake_trace_extends (opts : roundTripperOpts)
    (req : Request) (env : RoundTripEnv) (tr : List Action) :
    ∃ rest, (roundTripAfterHandshake opts req env tr).trace = tr ++ rest ∧
      Action.waitHandshake ∉ rest := by
  unfold roundTripAfterHandshake
  cases env.openStreamErr with
  | some e => exact ⟨[], by simp⟩
  | none =>
    simp only
    split
    · refine ⟨[Action.openStream, Action.closeReqDone] ++
        (if (doRequest opts req env.reqEnv).rerr.streamErr ≠ 0 then
          [Action.cancelWrite (doRequest opts req env.reqEnv).rerr.streamErr] else []) ++
        (if (doRequest opts req env.reqEnv).rerr.connErr ≠ 0 then
          [Action.closeConn (doRequest opts req env.reqEnv).rerr.connErr
            ((doRequest opts req env.reqEnv).rerr.err.getD "")] else []), ?_, ?_⟩
      · simp [List.append_assoc]
      · split <;> split <;> simp
    · exact ⟨[Action.openStream], by simp, by simp⟩

/-- The tail of `RoundTrip` records the method of the request it sent
whenever the stream was opened. -/
theorem roundTripAfterHandshake_sentMethod (opts : roundTripperOpts)
    (req : Request) (env : RoundTripEnv) (tr : List Action)
    (hopen : env.openStreamErr = none) :
    (roundTripAfterHandshake opts req env tr).sentMethod = some req.Method := by
  unfold roundTripAfterHandshake
  rw [hopen]
  simp only
  split <;> simp [doRequest_sentMethod]

/-- Claim C1: when the exchange run by `RoundTrip` fails, the per-request
cancellation watcher is shut down first (its done channel closed), then a
stream-scoped code cancels only the write side of the request stream, then a
connection-scoped code closes the whole connection with the error message as
reason; and no error is classified into both code spaces at once. -/
theorem C1_error_cleanup_order (opts : roundTripperOpts) (req : Request)
    (env : RoundTripEnv) (msg : String)
    (hdial : env.dialErr = none)
    (hopen : env.openStreamErr = none)
    (hctx : env.ctxDoneBeforeHandshake = false)
    (herr : (doRequest opts (effectiveRequest req) env.reqEnv).rerr.err = some msg) :
    ¬((doRequest opts (effectiveRequest req) env.reqEnv).rerr.streamErr ≠ 0 ∧
      (doRequest opts (effectiveRequest req) env.reqEnv).rerr.connErr ≠ 0) ∧
    (roundTrip opts req env).trace =
      (if req.Method = "GET_0RTT" then [] else [Action.waitHandshake]) ++
      [Action.openStream, Action.closeReqDone] ++
      (if (doRequest opts (effectiveRequest req) env.reqEnv).rerr.streamErr ≠ 0 then
        [Action.cancelWrite
          (doRequest opts (effectiveRequest req) env.reqEnv).rerr.streamErr] else []) ++
      (if (doRequest opts (effectiveRequest req) env.reqEnv).rerr.connErr ≠ 0 then
        [Action.closeConn
          (doRequest opts (effectiveRequest req) env.reqEnv).rerr.connErr msg] else []) := by
  constructor
  · rintro ⟨h1, h2⟩
    rcases doRequest_error_scope opts (effectiveRequest req) env.reqEnv with h | h
    · exact h1 h
    · exact h2 h
  · unfold roundTrip
    rw [hdial]
    by_cases hm : req.Method = "GET_0RTT"
    · rw [if_pos hm]
      have heq : effectiveRequest req = { req with Method := "GET" } := by
        simp [effectiveRequest, hm]
      rw [heq] at herr ⊢
      rw [roundTripAfterHandshake_error_trace opts _ env [] msg hopen herr]
      rw [if_pos hm]
    · rw [if_neg hm, if_neg (by simp [hctx])]
      have heq : effectiveRequest req = req := by simp [effectiveRequest, hm]
      rw [heq] at herr ⊢
      rw [roundTripAfterHandshake_error_trace opts _ env [Action.waitHandshake] msg hopen herr]
      rw [if_neg hm]

/-- Witness for C1 at a concrete input: a frame-parse failure yields the
stream-scoped frame error, and the trace cancels the watcher first and then
only the write side of the stream. -/
theorem C1_witness :
    ¬((doRequest {} (effectiveRequest wGetRequest) wParseFailEnv.reqEnv).rerr.streamErr ≠ 0 ∧
      (doRequest {} (effectiveRequest wGetRequest) wParseFailEnv.reqEnv).rerr.connErr ≠ 0) ∧
    (roundTrip {} wGetRequest wParseFailEnv).trace =
      (if wGetRequest.Method = "GET_0RTT" then [] else [Action.waitHandshake]) ++
      [Action.openStream, Action.closeReqDone] ++
      (if (doRequest {} (effectiveRequest wGetRequest) wParseFailEnv.reqEnv).rerr.streamErr ≠ 0 then
        [Action.cancelWrite
          (doRequest {} (effectiveRequest wGetRequest) wParseFailEnv.reqEnv).rerr.streamErr]
       else []) ++
      (if (doRequest {} (effectiveRequest wGetRequest) wParseFailEnv.reqEnv).rerr.connErr ≠ 0 then
        [Action.closeConn
          (doRequest {} (effectiveRequest wGetRequest) wParseFailEnv.reqEnv).rerr.connErr "boom"]
       else []) :=
  C1_error_cleanup_order {} wGetRequest wParseFailEnv "boom" rfl rfl rfl (by decide)

/-- Claim C5: on the control stream exactly one frame is read; a non-SETTINGS
frame closes the connection with the missing-settings error, and a SETTINGS
frame flagging datagram support while the client requested datagrams but the
transport lacks them closes the connection with the settings error. -/
theorem C5_control_stream_settings (opts : roundTripperOpts) (env : UniStreamEnv)
    (hct : env.streamTypeRead = Except.ok streamTypeControlStream) :
    (∀ len, env.controlParse = ControlParseResult.ok (Frame.dataFrame len) →
      handleUniStream opts env =
        [Action.readFrame, Action.closeConn errorMissingSettings ""]) ∧
    (∀ len, env.controlParse = ControlParseResult.ok (Frame.headersFrame len) →
      handleUniStream opts env =
        [Action.readFrame, Action.closeConn errorMissingSettings ""]) ∧
    (env.controlParse = ControlParseResult.ok (Frame.settingsFrame true) →
      opts.EnableDatagram = true → env.transportSupportsDatagrams = false →
      handleUniStream opts env =
        [Action.readFrame,
         Action.closeConn errorSettingsError "missing QUIC Datagram support"]) ∧
    (handleUniStream opts env).count Action.readFrame = 1 := by
  refine ⟨fun len hp => ?_, fun len hp => ?_, fun hp hen htr => ?_, ?_⟩
  · simp [handleUniStream, hct, hp]
  · simp [handleUniStream, hct, hp]
  · simp [handleUniStream, hct, hp, hen, htr]
  · obtain ⟨st, cp, td⟩ := env
    simp only at hct
    subst hct
    cases cp with
    | hijacked => rfl
    | parseErr m => rfl
    | ok f =>
      cases f with
      | dataFrame len => rfl
      | headersFrame len => rfl
      | settingsFrame dg =>
        cases dg with
        | false => rfl
        | true =>
          by_cases hEn : (opts.EnableDatagram && !td) = true
          · simp only [handleUniStream, hEn]
            rfl
          · simp only [handleUniStream, Bool.not_true, Bool.false_eq_true, if_false, hEn,
              if_true, ite_true, ite_false]
            rfl

/-- Witness for C5 at a concrete input: a DATA frame on the control stream
closes the connection with the missing-settings error, after exactly one
frame read. -/
theorem C5_witness :
    handleUniStream {} wControlDataEnv =
      [Action.readFrame, Action.closeConn errorMissingSettings ""] ∧
    (handleUniStream {} wControlDataEnv).count Action.readFrame = 1 :=
  ⟨(C5_control_stream_settings {} wControlDataEnv rfl).1 3 rfl,
   (C5_control_stream_settings {} wControlDataEnv rfl).2.2.2⟩

/-- Counterexample to claim C6 as stated: with a unidirectional hijack
callback configured, an unrecognized stream type is NOT delegated to the
callback — the handler cancels the stream read side with the
stream-creation error exactly as it does without a callback (the callback is
only consulted for unknown frames on the control stream). -/
theorem C6_counterexample :
    wHijackerOpts.hasUniStreamHijacker = true ∧
    handleUniStream wHijackerOpts wUnknownUniEnv =
      [Action.cancelRead errorStreamCreationError] ∧
    handleUniStream wHijackerOpts wUnknownUniEnv =
      handleUniStream {} wUnknownUniEnv := by
  refine ⟨rfl, by decide, by decide⟩

/-- Claim C6 as amended: an unrecognized unidirectional stream type has its
read side canceled with the stream-creation error — whether or not a hijack
callback is configured — and the connection is not closed; a push stream
closes the connection with the connection-scoped id error. -/
theorem C6_uni_stream_dispatch (opts : roundTripperOpts) (env : UniStreamEnv) :
    (∀ t, env.streamTypeRead = Except.ok t →
      t ≠ streamTypeControlStream → t ≠ streamTypeQPACKEncoderStream →
      t ≠ streamTypeQPACKDecoderStream → t ≠ streamTypePushStream →
      handleUniStream opts env = [Action.cancelRead errorStreamCreationError]) ∧
    (env.streamTypeRead = Except.ok streamTypePushStream →
      handleUniStream opts env = [Action.closeConn errorIDError ""]) := by
  constructor
  · intro t ht h0 h2 h3 h1
    simp [handleUniStream, ht, h0, h1, h2, h3]
  · intro ht
    simp [handleUniStream, ht, streamTypePushStream, streamTypeControlStream,
      streamTypeQPACKEncoderStream, streamTypeQPACKDecoderStream]

/-- Witness for the amended C6 at concrete inputs: stream type 0x21 with a
hijack callback configured is read-canceled, a push stream closes the
connection with the id error. -/
theorem C6_witness :
    handleUniStream wHijackerOpts wUnknownUniEnv =
      [Action.cancelRead errorStreamCreationError] ∧
    handleUniStream {} wPushEnv = [Action.closeConn errorIDError ""] :=
  ⟨(C6_uni_stream_dispatch wHijackerOpts wUnknownUniEnv).1 0x21 rfl
      (by decide) (by decide) (by decide) (by decide),
   (C6_uni_stream_dispatch {} wPushEnv).2 rfl⟩

/-- Claim C8: a `GET_0RTT` request is sent without waiting on the
handshake-complete signal and with its method rewritten to `GET`; any other
request waits for the handshake racing the request context, and when the
context fires first `RoundTrip` returns the context error without opening a
stream. -/
theorem C8_zero_rtt_handshake_wait (opts : roundTripperOpts) (req : Request)
    (env : RoundTripEnv) (hdial : env.dialErr = none) :
    (req.Method = "GET_0RTT" →
      Action.waitHandshake ∉ (roundTrip opts req env).trace ∧
      (env.openStreamErr = none →
        (roundTrip opts req env).sentMethod = some "GET")) ∧
    (req.Method ≠ "GET_0RTT" →
      (env.ctxDoneBeforeHandshake = true →
        roundTrip opts req env =
          { rsp := none, err := some env.ctxErr, trace := [Action.waitHandshake] }) ∧
      (env.ctxDoneBeforeHandshake = false →
        Action.waitHandshake ∈ (roundTrip opts req env).trace)) := by
  constructor
  · intro hm
    constructor
    · unfold roundTrip
      rw [hdial, if_pos hm]
      obtain ⟨rest, heq, hmem⟩ :=
        roundTripAfterHandshake_trace_extends opts { req with Method := "GET" } env []
      rw [heq]
      simpa using hmem
    · intro hopen
      unfold roundTrip
      rw [hdial, if_pos hm]
      exact roundTripAfterHandshake_sentMethod opts _ env [] hopen
  · intro hm
    constructor
    · intro hctx
      unfold roundTrip
      rw [hdial, if_neg hm, if_pos hctx]
    · intro hctx
      unfold roundTrip
      rw [hdial, if_neg hm, if_neg (by simp [hctx])]
      obtain ⟨rest, heq, _⟩ :=
        roundTripAfterHandshake_trace_extends opts req env [Action.waitHandshake]
      rw [heq]
      simp

/-- Witness for C8 at concrete inputs: the `GET_0RTT` request proceeds
without a handshake wait and is sent as `GET`; the ordinary `GET` request
waits on the handshake signal. -/
theorem C8_witness :
    (Action.waitHandshake ∉ (roundTrip {} wZeroRttRequest wParseFailEnv).trace ∧
      (roundTrip {} wZeroRttRequest wParseFailEnv).sentMethod = some "GET") ∧
    Action.waitHandshake ∈ (roundTrip {} wGetRequest wParseFailEnv).trace := by
  have h0 := (C8_zero_rtt_handshake_wait {} wZeroRttRequest wParseFailEnv rfl).1 rfl
  have h1 := (C8_zero_rtt_handshake_wait {} wGetRequest wParseFailEnv rfl).2
    (by decide) |>.2 rfl
  exact ⟨⟨h0.1, h0.2 rfl⟩, h1⟩

/-- Deleting a header key removes every value stored under its canonical
form. -/
theorem headerValues_headerDel_self (h : Header) (k : String) :
    headerValues (headerDel h k) (canonicalMIMEHeaderKey k) = none := by
  simp only [headerValues, headerDel]
  rw [Option.map_eq_none', List.find?_eq_none]
  intro x hx
  have hpred := (List.mem_filter.mp hx).2
  simpa using hpred

/-- Deleting one header key cannot make another key appear. -/
theorem headerValues_headerDel_of_none (h : Header) (k k2 : String)
    (hk : headerValues h k = none) :
    headerValues (headerDel h k2) k = none := by
  simp only [headerValues, headerDel] at hk ⊢
  rw [Option.map_eq_none', List.find?_eq_none] at hk ⊢
  intro x hx
  exact hk x (List.mem_filter.mp hx).1

/-- Claim C2: the Content-Length resolution of `doRequest`. When a
Transfer-Encoding header is present, or the status is 1xx or 204, or the
response is a successful answer to a CONNECT request, the content length is
not set from headers; otherwise it is -1, overridden by the parsed value
only when there is exactly one well-formed Content-Length header — multiple
or malformed values leave it -1 and never produce an error. -/
theorem C2_content_length_resolution (reqMethod : String) (res : Response) :
    (((headerValues res.Header "Transfer-Encoding").isSome = true ∨
      (100 ≤ res.StatusCode ∧ res.StatusCode < 200) ∨
      res.StatusCode = 204 ∨
      (reqMethod = "CONNECT" ∧ 200 ≤ res.StatusCode ∧ res.StatusCode < 300)) →
      (resolveContentLength reqMethod res).ContentLength = res.ContentLength) ∧
    (headerValues res.Header "Transfer-Encoding" = none →
      ¬(100 ≤ res.StatusCode ∧ res.StatusCode < 200) →
      res.StatusCode ≠ 204 →
      ¬(reqMethod = "CONNECT" ∧ 200 ≤ res.StatusCode ∧ res.StatusCode < 300) →
      (∀ s n, headerValues res.Header "Content-Length" = some [s] →
        goParseInt64 s = some n →
        (resolveContentLength reqMethod res).ContentLength = n) ∧
      (∀ s, headerValues res.Header "Content-Length" = some [s] →
        goParseInt64 s = none →
        (resolveContentLength reqMethod res).ContentLength = -1) ∧
      (∀ l, headerValues res.Header "Content-Length" = some l → l.length ≠ 1 →
        (resolveContentLength reqMethod res).ContentLength = -1) ∧
      (headerValues res.Header "Content-Length" = none →
        (resolveContentLength reqMethod res).ContentLength = -1)) := by
  constructor
  · intro hskip
    have hcond : (!(headerValues res.Header "Transfer-Encoding").isSome &&
        !(decide (100 ≤ res.StatusCode) && decide (res.StatusCode < 200)) &&
        !decide (res.StatusCode = 204) &&
        !(decide (reqMethod = "CONNECT") && decide (200 ≤ res.StatusCode) &&
          decide (res.StatusCode < 300))) = false := by
      rcases hskip with h | ⟨ha, hb⟩ | h | ⟨ha, hb, hc⟩
      · simp [h]
      · simp [ha, hb]
      · simp [h]
      · simp [ha, hb, hc]
    simp only [resolveContentLength]
    rw [if_neg (by rw [hcond]; simp)]
  · intro hTE hInfo hNC hConn
    have h1 : (headerValues res.Header "Transfer-Encoding").isSome = false := by
      simp [hTE]
    have h2 : (decide (100 ≤ res.StatusCode) && decide (res.StatusCode < 200)) = false := by
      rw [← Bool.decide_and]
      exact decide_eq_false hInfo
    have h3 : decide (res.StatusCode = 204) = false := decide_eq_false hNC
    have h4 : (decide (reqMethod = "CONNECT") && decide (200 ≤ res.StatusCode) &&
        decide (res.StatusCode < 300)) = false := by
      rw [← Bool.decide_and, ← Bool.decide_and]
      exact decide_eq_false (by tauto)
    refine ⟨fun s n hs hn => ?_, fun s hs hn => ?_, fun l hl hlen => ?_, fun hnone => ?_⟩
    · simp only [resolveContentLength]
      rw [if_pos (by simp only [h1, h2, h3, h4]; rfl)]
      simp [hs, hn]
    · simp only [resolveContentLength]
      rw [if_pos (by simp only [h1, h2, h3, h4]; rfl)]
      simp [hs, hn]
    · rcases l with _ | ⟨a, _ | ⟨b, t⟩⟩
      · simp only [resolveContentLength]
        rw [if_pos (by simp only [h1, h2, h3, h4]; rfl)]
        simp [hl]
      · simp at hlen
      · simp only [resolveContentLength]
        rw [if_pos (by simp only [h1, h2, h3, h4]; rfl)]
        simp [hl]
    · simp only [resolveContentLength]
      rw [if_pos (by simp only [h1, h2, h3, h4]; rfl)]
      simp [hnone]

/-- Witness for C2 at concrete inputs: a 204 response carrying a
Content-Length header keeps the unset length, and a response with two
Content-Length values keeps -1. -/
theorem C2_witness :
    (resolveContentLength "GET" wNoContentResponse).ContentLength = 0 ∧
    (resolveContentLength "GET" wDupContentLengthResponse).ContentLength = -1 :=
  ⟨(C2_content_length_resolution "GET" wNoContentResponse).1
      (Or.inr (Or.inr (Or.inl (by decide)))),
   ((C2_content_length_resolution "GET" wDupContentLengthResponse).2
      rfl (by decide) (by decide) (by decide)).2.2.1 ["10", "20"] rfl (by decide)⟩

/-- Claim C7: transparent gzip is advertised exactly when compression is not
disabled, the method is not HEAD, and the caller has set neither an
Accept-Encoding nor a Range header; and when it was advertised and the
response declares gzip content encoding, the Content-Encoding and
Content-Length headers are removed, the content length becomes -1 and the
body is wrapped in the gzip reader; otherwise the raw body is used. -/
theorem C7_transparent_gzip (opts : roundTripperOpts) (req : Request)
    (res : Response) :
    (computeRequestGzip opts req = true ↔
      (opts.DisableCompression = false ∧ req.Method ≠ "HEAD" ∧
       headerGet req.Header "Accept-Encoding" = "" ∧
       headerGet req.Header "Range" = "")) ∧
    (headerGet res.Header "Content-Encoding" = "gzip" →
      headerValues (applyGzip true res).Header "Content-Encoding" = none ∧
      headerValues (applyGzip true res).Header "Content-Length" = none ∧
      (applyGzip true res).ContentLength = -1 ∧
      (applyGzip true res).Body = BodyKind.gzip ∧
      (applyGzip true res).Uncompressed = true) ∧
    (∀ g : Bool, g = false ∨ headerGet res.Header "Content-Encoding" ≠ "gzip" →
      (applyGzip g res).Body = BodyKind.raw) := by
  refine ⟨?_, fun henc => ?_, fun g hg => ?_⟩
  · simp [computeRequestGzip, and_assoc, Bool.not_eq_true']
  · have hCE : headerValues (headerDel res.Header "Content-Encoding")
        "Content-Encoding" = none := by
      have h := headerValues_headerDel_self res.Header "Content-Encoding"
      rwa [show canonicalMIMEHeaderKey "Content-Encoding" = "Content-Encoding" by decide] at h
    have hCE2 : headerValues
        (headerDel (headerDel res.Header "Content-Encoding") "Content-Length")
        "Content-Encoding" = none :=
      headerValues_headerDel_of_none _ _ _ hCE
    have hCL : headerValues
        (headerDel (headerDel res.Header "Content-Encoding") "Content-Length")
        "Content-Length" = none := by
      have h := headerValues_headerDel_self
        (headerDel res.Header "Content-Encoding") "Content-Length"
      rwa [show canonicalMIMEHeaderKey "Content-Length" = "Content-Length" by decide] at h
    simp [applyGzip, henc, hCE2, hCL]
  · rcases hg with hg | hg
    · simp [applyGzip, hg]
    · simp [applyGzip, hg]

/-- Witness for C7 at concrete inputs: a plain GET request advertises gzip,
and a gzip-encoded response comes back decompressed with both headers
removed. -/
theorem C7_witness :
    computeRequestGzip {} wGetRequest = true ∧
    headerValues (applyGzip true wGzipResponse).Header "Content-Encoding" = none ∧
    headerValues (applyGzip true wGzipResponse).Header "Content-Length" = none ∧
    (applyGzip true wGzipResponse).ContentLength = -1 ∧
    (applyGzip true wGzipResponse).Body = BodyKind.gzip :=
  ⟨(C7_transparent_gzip {} wGetRequest wGzipResponse).1.mpr
      ⟨rfl, by decide, rfl, rfl⟩,
   ((C7_transparent_gzip {} wGetRequest wGzipResponse).2.1 (by decide)).1,
   ((C7_transparent_gzip {} wGetRequest wGzipResponse).2.1 (by decide)).2.1,
   ((C7_transparent_gzip {} wGetRequest wGzipResponse).2.1 (by decide)).2.2.1,
   ((C7_transparent_gzip {} wGetRequest wGzipResponse).2.1 (by decide)).2.2.2.1⟩

end Http3Client
